import Mathlib

/-!
Shallow embedding of src/old_working_code.py, a back-office batch job with
two subsystems: a batch attribute-merge engine over entity user fields
(legacy flow: run, update_stdl_userfield, write_report) and a closed-account
notification pipeline (new flow: process_records, send_email,
write_audit_log).  Definitions are translated from the Python source;
external collaborators (database, SMTP transport, template renderer, the
email_validator library, date parsing, the wall clock) are parameters.
-/

namespace Delivery

/-! ## Python value model

The legacy merge-reporting code compares values of different Python runtime
types (an integer entity number against a bind-parameter list, an integer
against a report tuple).  Python `==` across these types never raises; it
simply returns False for mismatched container/scalar types and compares
element-wise for matching container types.  `PyVal` embeds just the value
shapes that flow through `update_stdl_userfield` and `write_report`. -/

inductive PyVal where
  | int : Int → PyVal
  | str : String → PyVal
  | list : List PyVal → PyVal
  | tuple : List PyVal → PyVal
deriving Repr

mutual

/-- Python `==` on the embedded values: equal ints, equal strings,
element-wise equal lists, element-wise equal tuples; any cross-type
comparison (int vs list, int vs tuple, ...) is False. -/
def pyEq : PyVal → PyVal → Bool
  | PyVal.int a, PyVal.int b => a == b
  | PyVal.str a, PyVal.str b => a == b
  | PyVal.list a, PyVal.list b => pyEqList a b
  | PyVal.tuple a, PyVal.tuple b => pyEqList a b
  | _, _ => false

/-- Element-wise Python `==` on sequences of embedded values. -/
def pyEqList : List PyVal → List PyVal → Bool
  | [], [] => true
  | x :: xs, y :: ys => pyEq x y && pyEqList xs ys
  | _, _ => false

end

/-- Python membership test `x in l` which uses `==` on each element. -/
def pyMem (x : PyVal) (l : List PyVal) : Bool :=
  l.any (fun y => pyEq x y)

/-- Python str.upper() on the ASCII flag strings used by the job. -/
def pyUpper (s : String) : String := String.mk (s.data.map Char.toUpper)

/-! ## Subsystem 1 data model: entity records from fetch_records -/

/-- One row of the legacy extraction query, split by entity type in
fetch_records.  Fields carry the dictionary keys used by
update_stdl_userfield. -/
structure EntityRecord where
  ENTITY_NUMBER : Int
  ACCTNBR : Int
  ENTITY_TYPE : String
  CLOSE_DATE : String
deriving Repr, DecidableEq

/-- The attribute store restricted to the STDL user field: the current STDL
value per entity key (none when no STDL row exists for the key). -/
def Store : Type := Int → Option String

/-- Transaction decision taken right after the batch merge. -/
inductive TxAction where
  | commit
  | rollback
deriving Repr, DecidableEq

/-- Source line `entity_nbrs = [[r] for r in filtered_nbrs]`: each bind row
submitted to executemany is a one-element list holding the entity number. -/
def entityNbrsOf (filtered_nbrs : List Int) : List (List Int) :=
  filtered_nbrs.map (fun r => [r])

/-- The fails list built by the batch-error loop of update_stdl_userfield.
For each batch error offset, `merge_ent_nbr = entity_nbrs[error_idx]` is the
one-element bind list (a Python list, not the bare number), and each record
with `rec["ENTITY_NUMBER"] == merge_ent_nbr` contributes a five-element
Fail tuple whose first component is that same list. -/
def failsOf (records : List EntityRecord) (filtered_nbrs : List Int)
    (error_offsets : List Nat) : List PyVal :=
  error_offsets.foldl (fun fails error_idx =>
    let merge_ent_nbr : List Int := (entityNbrsOf filtered_nbrs).getD error_idx []
    records.foldl (fun fails rec =>
      if pyEq (PyVal.int rec.ENTITY_NUMBER) (PyVal.list (merge_ent_nbr.map PyVal.int)) then
        fails ++ [PyVal.tuple [PyVal.list (merge_ent_nbr.map PyVal.int),
          PyVal.int rec.ACCTNBR, PyVal.str rec.ENTITY_TYPE,
          PyVal.str rec.CLOSE_DATE, PyVal.str "Fail"]]
      else fails) fails) []

/-- The successes list of update_stdl_userfield: every record whose
ENTITY_NUMBER is not `in` the fails list (Python membership over the Fail
tuples) becomes a five-element Success tuple. -/
def successesOf (records : List EntityRecord) (fails : List PyVal) : List PyVal :=
  (records.filter (fun r => !(pyMem (PyVal.int r.ENTITY_NUMBER) fails))).map
    (fun r => PyVal.tuple [PyVal.int r.ENTITY_NUMBER, PyVal.int r.ACCTNBR,
      PyVal.str r.ENTITY_TYPE, PyVal.str r.CLOSE_DATE, PyVal.str "Success"])

/-- One conditional upsert of the MERGE statement: the STDL value for the
key becomes PAPR whether the row matched (UPDATE) or not (INSERT). -/
def mergeOne (st : Store) (k : Int) : Store :=
  fun q => if q = k then some "PAPR" else st q

/-- Effect of the batched executemany with batcherrors=True on the store:
rows at the reported error offsets are rejected and leave no change, every
other submitted key is upserted to PAPR. -/
def applyBatch (st : Store) (keys : List Int) (error_offsets : List Nat) : Store :=
  ((keys.enum).filter (fun p => !(error_offsets.contains p.1))).foldl
    (fun s p => mergeOne s p.2) st

/-- Result bundle of one update_stdl_userfield call: the two report lists,
the store as visible after the commit-or-rollback decision, and that
decision. -/
structure MergeRun where
  successes : List PyVal
  fails : List PyVal
  store : Store
  tx : TxAction

/-- Embedding of update_stdl_userfield (source lines 442-517).  Inputs that
come from collaborators are parameters: `filtered_nbrs` is the
deduplicated id list (Python set order is unspecified), `error_offsets`
are the row offsets reported by getbatcherrors, `st` is the attribute
store before the call.  The commit happens when RPTONLY_YN.upper() == "N",
otherwise the transaction is rolled back (db_connect also sets autocommit
accordingly, source lines 215-224); either way the function still returns
the successes and fails classification. -/
def update_stdl_userfield (rptonly_yn : String) (records : List EntityRecord)
    (st : Store) (filtered_nbrs : List Int) (error_offsets : List Nat) : MergeRun :=
  let fails := failsOf records filtered_nbrs error_offsets
  let pending := applyBatch st filtered_nbrs error_offsets
  let tx := if pyUpper rptonly_yn = "N" then TxAction.commit else TxAction.rollback
  let stFinal := match tx with
    | TxAction.commit => pending
    | TxAction.rollback => st
  let successes := successesOf records fails
  ⟨successes, fails, stFinal, tx⟩

/-! ## Legacy report writing (write_report, source lines 520-544) and the
report phase of run (source lines 98-103) -/

/-- Error raised by CPython when a function-local variable is read before
any assignment to it has executed. -/
def unboundLocalMsg : String :=
  "UnboundLocalError: local variable referenced before assignment"

/-- Projection of a report tuple to its field sequence.  In the source each
record is a five-tuple and `dict(zip(header, rec))` followed by reading the
fields back in header order reproduces the tuple elements in order. -/
def tupleFields : PyVal → List PyVal
  | PyVal.tuple xs => xs
  | _ => []

/-- The `for rec in records` loop of write_report.  `header` is a local
variable bound only inside the `if write_mode == "w"` branch; when the
loop body reads it unbound, CPython raises before any row of this call is
written. -/
def reportRowsLoop (header : Option (List String)) (rows : List (List PyVal)) :
    List PyVal → Except String (List (List PyVal))
  | [] => Except.ok rows
  | r :: rest =>
    match header with
    | none => Except.error unboundLocalMsg
    | some h =>
      reportRowsLoop header (rows ++ [((h.zip (tupleFields r)).map Prod.snd)]) rest

/-- Embedding of write_report: returns the rows written by this call, or
the unbound-variable error.  In mode "w" the source binds `header` and
writes it as the first row; in any other mode `header` is never bound. -/
def write_report (write_mode : String) (records : List PyVal) :
    Except String (List (List PyVal)) :=
  let header : Option (List String) :=
    if write_mode = "w" then
      some ["ENTITY_NBR", "ACCTNBR", "ENTITY_TYPE", "CLOSE_DATE", "RESULT"]
    else none
  let initRows : List (List PyVal) :=
    match header with
    | some h => [h.map PyVal.str]
    | none => []
  reportRowsLoop header initRows records

/-- Report-writing phase of run (source lines 100-103): write_report is
called with mode "w" only when successes is non-empty, then with mode "a+"
only when fails is non-empty; an exception from either call aborts the
run.  The ok value is the full report content. -/
def writeReportsPhase (successes fails : List PyVal) :
    Except String (List (List PyVal)) :=
  let step1 : Except String (List (List PyVal)) :=
    if successes.isEmpty then Except.ok [] else write_report "w" successes
  match step1 with
  | Except.error e => Except.error e
  | Except.ok rows =>
    if fails.isEmpty then Except.ok rows
    else
      match write_report "a+" fails with
      | Except.error e => Except.error e
      | Except.ok more => Except.ok (rows ++ more)

/-- Arguments of the legacy flow used by run. -/
structure LegacyArgs where
  FULL_CLEANUP_YN : String
  RUN_DATE : Option String
  RPTONLY_YN : String
deriving Repr, DecidableEq

/-- Embedding of the legacy run (source lines 57-119) up to the report
file: the output-path existence check, the mutually-exclusive
date-selection parameter checks, the two update_stdl_userfield calls, and
the report-writing phase.  Collaborator results are parameters: whether
the output path exists, the fetched person and organization records, each
table's store, deduplicated id list and batch error offsets.  An error
value aborts the run with no report content. -/
def runLegacy (args : LegacyArgs) (outputExists : Bool)
    (pers_records org_records : List EntityRecord)
    (persStore orgStore : Store)
    (persFiltered orgFiltered : List Int)
    (persErrs orgErrs : List Nat) : Except String (List (List PyVal)) :=
  if outputExists then Except.error "Output file already exists"
  else
    let is_full_cleanup : Option Bool :=
      if pyUpper args.FULL_CLEANUP_YN = "Y" then some true else none
    if is_full_cleanup.isSome && args.RUN_DATE.isSome then
      Except.error "Parameter error - IS_FULL_CLEANUP and RUN_DATE params are mutually exclusive"
    else if is_full_cleanup.isNone && args.RUN_DATE.isNone then
      Except.error "Parameter error - no RUN_DATE parameter provided, and IS_FULL_CLEANUP not selected"
    else
      let p := update_stdl_userfield args.RPTONLY_YN pers_records persStore persFiltered persErrs
      let o := update_stdl_userfield args.RPTONLY_YN org_records orgStore orgFiltered orgErrs
      let successes := p.successes ++ o.successes
      let fails := p.fails ++ o.fails
      writeReportsPhase successes fails

/-! ## Subsystem 2 data model: closed-account notification pipeline -/

/-- One row of the closed-account extraction query plus the two mutable
audit fields RESULT and EXCPYN that process_records assigns.  Optional
fields model SQL NULL as none; FDI_INACTIVE_DATE keeps its raw string form
because the source parses it only inside is_fdi. -/
structure ClosedAccountRecord where
  ACCTNBR : Int
  EMAILADDR : Option String
  BALANCE : Option Int
  MEMBERNAME : String
  EMAILDATE : String
  FDI_NOTECLASSCD : Option String
  FDI_INACTIVE_DATE : Option String
  RESULT : String := ""
  EXCPYN : Bool := false
deriving Repr, DecidableEq

/-- Run configuration consumed by send_email and its helpers. -/
structure EmailConfig where
  testEmailAddr : Option String
  fromEmailAddr : String
  sendEmailYN : String
  awHomeSet : Bool
deriving Repr, DecidableEq

/-- External collaborators of the notification pipeline: the
email_validator library verdict, strptime on "%m/%d/%Y" strings as a
timestamp, the current moment, the run configuration, and the transport
outcome per dispatched-to address. -/
structure ProcessParams where
  libValid : String → Bool
  parseDate : String → Int
  now : Int
  cfg : EmailConfig
  smtpOk : Option String → Bool

/-- The seven RESULT strings process_records can assign. -/
def allResults : List String :=
  ["Email Sent", "Email Already Sent", "Email Address Invalid",
   "Account Has Balance", "Existing Active 8FDI Note",
   "Email Send Disabled", "Email Failed"]

/-- The RESULT strings that the code pairs with EXCPYN = true. -/
def exceptionResults : List String :=
  ["Email Address Invalid", "Account Has Balance",
   "Existing Active 8FDI Note", "Email Send Disabled", "Email Failed"]

/-- The RESULT strings that can only come out of a send_email call, i.e.
that mark a record for which a send attempt was reached. -/
def sendAttemptResults : List String :=
  ["Email Sent", "Email Failed", "Email Send Disabled"]

/-- Embedding of validate_email (source lines 553-561): a missing or empty
address is invalid (`if not email`), otherwise the external
email_validator library decides. -/
def validate_email (libValid : String → Bool) (email : Option String) : Bool :=
  match email with
  | none => false
  | some s => if s = "" then false else libValid s

/-- Embedding of is_fdi (source lines 564-574): the note class must equal
"8FDI", the inactive date string must be non-falsy, and the parsed date
must be on or after the current moment. -/
def is_fdi (parseDate : String → Int) (now : Int) (account : ClosedAccountRecord) : Bool :=
  if account.FDI_NOTECLASSCD ≠ some "8FDI" then false
  else
    match account.FDI_INACTIVE_DATE with
    | none => false
    | some s => if s = "" then false else decide (parseDate s ≥ now)

/-- Embedding of is_local_environment (source lines 586-588): the absence
of AW_HOME means a local, non-production environment. -/
def is_local_environment (awHomeSet : Bool) : Bool := !awHomeSet

/-- Embedding of send_email_enabled (source lines 591-592). -/
def send_email_enabled (sendEmailYN : String) : Bool := pyUpper sendEmailYN = "Y"

/-- Externally visible side effects of one send_email call, in order of
occurrence: the Jinja template render of the member-specific body, and the
SMTP submission to the dispatched-to address. -/
inductive Effect where
  | renderTemplate
  | smtpSend : Option String → Effect
deriving Repr, DecidableEq

/-- The dispatched-to address computed at the top of send_email: a
non-empty TEST_EMAIL_ADDR overrides the record address (Python truthiness
of the argument). -/
def dispatch_to (cfg : EmailConfig) (account : ClosedAccountRecord) : Option String :=
  match cfg.testEmailAddr with
  | some t => if t = "" then account.EMAILADDR else some t
  | none => account.EMAILADDR

/-- Embedding of send_email (source lines 730-750).  The source computes
the dispatched-to address, renders the email body and builds the message,
and only then checks the local-environment/SEND_EMAIL_YN guard; the
transport is contacted only past that guard.  Returns the
(successful, message) pair together with the effect trace; the template
render is in the trace on every path because generate_email_content runs
before the guard. -/
def send_email (p : ProcessParams) (account : ClosedAccountRecord) :
    (Bool × String) × List Effect :=
  if is_local_environment p.cfg.awHomeSet || !send_email_enabled p.cfg.sendEmailYN then
    ((false, "Email Send Disabled"), [Effect.renderTemplate])
  else if p.smtpOk (dispatch_to p.cfg account) then
    ((true, "Email Sent"),
      [Effect.renderTemplate, Effect.smtpSend (dispatch_to p.cfg account)])
  else
    ((false, "Email Failed"),
      [Effect.renderTemplate, Effect.smtpSend (dispatch_to p.cfg account)])

/-- Python set.add on the run-scoped email_sent set: adding an element
already present changes nothing. -/
def insertOnce (x : Option String) (s : List (Option String)) : List (Option String) :=
  if s.contains x then s else x :: s

/-- The two assignments at the top of the process_records loop body:
RESULT is reset to the empty string and EXCPYN to False before the rule
chain runs. -/
def init_record (account : ClosedAccountRecord) : ClosedAccountRecord :=
  { account with RESULT := "", EXCPYN := false }

/-- The rule chain of the process_records loop body over the already
initialised record: duplicate recipient, invalid email, nonzero balance
(null treated as zero), active 8FDI note, and otherwise - guarded by the
freshly reset EXCPYN - the send attempt, after which the record address is
added to the email_sent set unconditionally. -/
def process_one_rules (p : ProcessParams) (email_sent : List (Option String))
    (account : ClosedAccountRecord) : ClosedAccountRecord × List (Option String) :=
  if email_sent.contains account.EMAILADDR then
    ({ account with RESULT := "Email Already Sent" }, email_sent)
  else if validate_email p.libValid account.EMAILADDR = false then
    ({ account with RESULT := "Email Address Invalid", EXCPYN := true }, email_sent)
  else if account.BALANCE.getD 0 ≠ 0 then
    ({ account with RESULT := "Account Has Balance", EXCPYN := true }, email_sent)
  else if is_fdi p.parseDate p.now account then
    ({ account with RESULT := "Existing Active 8FDI Note", EXCPYN := true }, email_sent)
  else if account.EXCPYN = false then
    ({ account with EXCPYN := !(send_email p account).1.1, RESULT := (send_email p account).1.2 },
      insertOnce account.EMAILADDR email_sent)
  else
    (account, email_sent)

/-- One iteration of the process_records loop (source lines 664-691):
initialise RESULT and EXCPYN, then run the rule chain. -/
def process_one (p : ProcessParams) (email_sent : List (Option String))
    (account : ClosedAccountRecord) : ClosedAccountRecord × List (Option String) :=
  process_one_rules p email_sent (init_record account)

/-- The process_records loop over a record list, threading the email_sent
set and collecting the updated records in order. -/
def processList (p : ProcessParams) (email_sent : List (Option String)) :
    List ClosedAccountRecord → List ClosedAccountRecord × List (Option String)
  | [] => ([], email_sent)
  | a :: rest =>
    let step := process_one p email_sent a
    let restOut := processList p step.2 rest
    (step.1 :: restOut.1, restOut.2)

/-- Embedding of process_records (source lines 660-691): the loop starts
from an empty email_sent set and mutates every record in place; the
returned list is the records in original order with RESULT and EXCPYN
assigned. -/
def process_records (p : ProcessParams) (accounts : List ClosedAccountRecord) :
    List ClosedAccountRecord :=
  (processList p [] accounts).1

/-! ## Audit report builder (write_audit_log and write_csv,
source lines 694-727) -/

/-- Embedding of write_csv: a non-empty group is rendered as the
configured header row, one row per record with the cells looked up by
header field name, and a blank row; an empty group is rendered as the NONE
marker row and a blank row. -/
def write_csv (csv_header : List String)
    (getField : ClosedAccountRecord → String → String)
    (records : List ClosedAccountRecord) : List (List String) :=
  if records.isEmpty then [["NONE"], []]
  else (csv_header :: records.map (fun r => csv_header.map (getField r))) ++ [[]]

/-- Embedding of write_audit_log: title and date lines, the EMAILS SENT
section over the records with EXCPYN false, the EXCEPTIONS section over
the records with EXCPYN true, and the END marker.  The groups are built
with filter, in original record order. -/
def write_audit_log (run_date effdate : String) (csv_header : List String)
    (getField : ClosedAccountRecord → String → String)
    (accounts : List ClosedAccountRecord) : List (List String) :=
  [["CONSUMER CLOSED LOANS EMAIL AUDIT LOG"],
   ["RUN DATE: " ++ run_date],
   ["EFFDATE: " ++ effdate],
   []]
  ++ [["EMAILS SENT"]]
  ++ write_csv csv_header getField (accounts.filter (fun r => !r.EXCPYN))
  ++ [[]]
  ++ [["EXCEPTIONS"]]
  ++ write_csv csv_header getField (accounts.filter (fun r => r.EXCPYN))
  ++ [["END"]]

/-! ## Fixtures used by the concrete theorems -/

/-- Fixture entity record for the merge-classification bug. -/
def recC1 : EntityRecord := ⟨1, 100, "pers", "01-01-2024"⟩

/-- Fixture empty store. -/
def emptyStore : Store := fun _ => none

/-- Fixture configuration: non-production environment (AW_HOME absent) and
SEND_EMAIL_YN = "N", so sending is disabled on both grounds. -/
def cfgDisabled : EmailConfig :=
  { testEmailAddr := none,
    fromEmailAddr := "member.communications@firsttechfed.com",
    sendEmailYN := "N", awHomeSet := false }

/-- Fixture parameters: the validator accepts every address, dates parse to
0, the current moment is 10, sending is disabled, the transport would
succeed. -/
def pDisabled : ProcessParams :=
  { libValid := fun _ => true, parseDate := fun _ => 0, now := 10,
    cfg := cfgDisabled, smtpOk := fun _ => true }

/-- Fixture record that passes every exclusion rule: a syntactically fine
address, no balance, no FDI note. -/
def aSendable : ClosedAccountRecord :=
  { ACCTNBR := 42, EMAILADDR := some "a@b.com", BALANCE := none,
    MEMBERNAME := "M", EMAILDATE := "01/01/2026",
    FDI_NOTECLASSCD := none, FDI_INACTIVE_DATE := none }

/-- Fixture record that already carries the exception flag. -/
def aExc : ClosedAccountRecord := { aSendable with EXCPYN := true }

/-- Fixture record with the same address as aSendable and a nonzero
balance. -/
def aSameAddrBalance : ClosedAccountRecord :=
  { aSendable with ACCTNBR := 43, BALANCE := some 150 }

/-- Fixture record with the same address as aSendable, a second closed
account of the same member. -/
def aSameAddr : ClosedAccountRecord := { aSendable with ACCTNBR := 44 }

/-- Fixture record carrying an active 8FDI note. -/
def aFdi : ClosedAccountRecord :=
  { aSendable with FDI_NOTECLASSCD := some "8FDI", FDI_INACTIVE_DATE := some "12/31/2099" }

/-- Fixture parameters under which the aFdi note is still active: the note
date parses to 100 and the current moment is 10. -/
def pFdi : ProcessParams :=
  { libValid := fun _ => true, parseDate := fun _ => 100, now := 10,
    cfg := cfgDisabled, smtpOk := fun _ => true }

/-! ## Helper lemmas -/

theorem pyEq_int_list (a : Int) (l : List PyVal) :
    pyEq (PyVal.int a) (PyVal.list l) = false := rfl

theorem failsOf_step (records : List EntityRecord) (m : List Int) (fails : List PyVal) :
    records.foldl (fun fails rec =>
      if pyEq (PyVal.int rec.ENTITY_NUMBER) (PyVal.list (m.map PyVal.int)) then
        fails ++ [PyVal.tuple [PyVal.list (m.map PyVal.int),
          PyVal.int rec.ACCTNBR, PyVal.str rec.ENTITY_TYPE,
          PyVal.str rec.CLOSE_DATE, PyVal.str "Fail"]]
      else fails) fails = fails := by
  induction records generalizing fails with
  | nil => rfl
  | cons r rs ih => simp [pyEq_int_list, ih fails]

theorem foldl_const {α β : Type} (l : List α) (b : β) :
    l.foldl (fun b _ => b) b = b := by
  induction l generalizing b with
  | nil => rfl
  | cons x xs ih => exact ih b

theorem failsOf_eq_nil (records : List EntityRecord) (filtered : List Int)
    (errs : List Nat) : failsOf records filtered errs = [] := by
  unfold failsOf
  simp only [failsOf_step]
  exact foldl_const errs []

theorem successesOf_nil_fails (records : List EntityRecord) :
    successesOf records [] = records.map
      (fun r => PyVal.tuple [PyVal.int r.ENTITY_NUMBER, PyVal.int r.ACCTNBR,
        PyVal.str r.ENTITY_TYPE, PyVal.str r.CLOSE_DATE, PyVal.str "Success"]) := by
  simp [successesOf, pyMem]

/-- C1: the claim states the merge outcome classification partitions the
EntityRecords purely by entity_id and that every record sharing a failed
entity_id appears in the fails list.  The code contradicts this and its own
comment ("if failed entity nbr exists, add fail message to record for
reporting"): merge_ent_nbr = entity_nbrs[error_idx] is the one-element bind
list, Python `==` between the integer ENTITY_NUMBER and that list is always
False, so the fails list is always empty, and since `not in fails` compares
an integer against five-element tuples, every record lands in successes.
At the failing input (one record with entity id 1, the deduplicated batch
[1], and a batch error reported at offset 0) the record is classified
Success and the fails list is empty. -/
theorem c1_merge_classification_bug :
    (∀ (a : Int) (l : List PyVal), pyEq (PyVal.int a) (PyVal.list l) = false) ∧
    (∀ (records : List EntityRecord) (filtered : List Int) (errs : List Nat),
      failsOf records filtered errs = []) ∧
    (∀ (records : List EntityRecord) (filtered : List Int) (errs : List Nat),
      successesOf records (failsOf records filtered errs) = records.map
        (fun r => PyVal.tuple [PyVal.int r.ENTITY_NUMBER, PyVal.int r.ACCTNBR,
          PyVal.str r.ENTITY_TYPE, PyVal.str r.CLOSE_DATE, PyVal.str "Success"])) ∧
    (update_stdl_userfield "Y" [recC1] emptyStore [1] [0]).fails = [] ∧
    (update_stdl_userfield "Y" [recC1] emptyStore [1] [0]).successes =
      [PyVal.tuple [PyVal.int 1, PyVal.int 100, PyVal.str "pers",
        PyVal.str "01-01-2024", PyVal.str "Success"]] := by
  refine ⟨pyEq_int_list, failsOf_eq_nil, ?_, rfl, rfl⟩
  intro records filtered errs
  rw [failsOf_eq_nil, successesOf_nil_fails]

/-- C5: in report-only mode (RPTONLY_YN other than "N") the transaction is
rolled back and the attribute store is left exactly as it was, regardless
of the per-row batch outcomes, while the success/failure classification is
still produced; with RPTONLY_YN = "N" the transaction is committed and the
batched upserts persist.  The parser restricts the flag to "Y" or "N". -/
theorem c5_report_only (flag : String) (records : List EntityRecord) (st : Store)
    (filtered : List Int) (errs : List Nat) (hflag : flag = "Y" ∨ flag = "N") :
    (flag ≠ "N" →
      (update_stdl_userfield flag records st filtered errs).tx = TxAction.rollback ∧
      (update_stdl_userfield flag records st filtered errs).store = st) ∧
    (flag = "N" →
      (update_stdl_userfield flag records st filtered errs).tx = TxAction.commit ∧
      (update_stdl_userfield flag records st filtered errs).store
        = applyBatch st filtered errs) ∧
    (update_stdl_userfield flag records st filtered errs).successes
      = successesOf records (failsOf records filtered errs) ∧
    (update_stdl_userfield flag records st filtered errs).fails
      = failsOf records filtered errs := by
  rcases hflag with h | h <;> subst h
  · refine ⟨fun _ => ?_, fun h => absurd h (by decide), rfl, rfl⟩
    have hy : (pyUpper "Y" = "N") = False := by simp [show pyUpper "Y" = "Y" from rfl]
    constructor
    · simp [update_stdl_userfield, hy]
    · simp [update_stdl_userfield, hy]
  · refine ⟨fun h => absurd rfl h, fun _ => ?_, rfl, rfl⟩
    have hn : pyUpper "N" = "N" := rfl
    constructor
    · simp [update_stdl_userfield, hn]
    · simp [update_stdl_userfield, hn]

/-- Witness for c5_report_only at a concrete input. -/
theorem c5_report_only_witness :
    (("Y" : String) = "Y" ∨ ("Y" : String) = "N") ∧
    ((update_stdl_userfield "Y" [recC1] emptyStore [1] [0]).tx = TxAction.rollback ∧
      (update_stdl_userfield "Y" [recC1] emptyStore [1] [0]).store = emptyStore) :=
  ⟨Or.inl rfl,
    (c5_report_only "Y" [recC1] emptyStore [1] [0] (Or.inl rfl)).1 (by decide)⟩

/-- C7: with the output path not already taken, the legacy run aborts with
an error and produces no report whenever the date-selection parameters
conflict: FULL_CLEANUP_YN of "Y" together with a RUN_DATE, or neither a
full-cleanup selection nor a RUN_DATE. -/
theorem c7_param_conflict (args : LegacyArgs)
    (pers org : List EntityRecord) (ps os : Store)
    (pf pof : List Int) (pe oe : List Nat)
    (hconflict : (pyUpper args.FULL_CLEANUP_YN = "Y" ∧ args.RUN_DATE.isSome) ∨
      (pyUpper args.FULL_CLEANUP_YN ≠ "Y" ∧ args.RUN_DATE = none)) :
    ∃ e, runLegacy args false pers org ps os pf pof pe oe = Except.error e := by
  rcases hconflict with ⟨h1, h2⟩ | ⟨h1, h2⟩
  · refine ⟨"Parameter error - IS_FULL_CLEANUP and RUN_DATE params are mutually exclusive", ?_⟩
    simp [runLegacy, h1, h2]
  · refine ⟨"Parameter error - no RUN_DATE parameter provided, and IS_FULL_CLEANUP not selected", ?_⟩
    simp [runLegacy, h1, h2]

/-- Witness for c7_param_conflict at a concrete input. -/
theorem c7_param_conflict_witness :
    (pyUpper "Y" = "Y" ∧ (some "01-01-2024" : Option String).isSome) ∧
    ∃ e, runLegacy ⟨"Y", some "01-01-2024", "N"⟩ false [] []
      emptyStore emptyStore [] [] [] [] = Except.error e :=
  ⟨⟨rfl, rfl⟩, c7_param_conflict ⟨"Y", some "01-01-2024", "N"⟩ [] []
    emptyStore emptyStore [] [] [] [] (Or.inl ⟨rfl, rfl⟩)⟩

/-- C9: when the legacy run ends with failure rows but no success rows,
write_report runs only in append mode, in which the local variable header
is never bound before the row loop reads it; writing the first failure
record raises the unbound-variable error, so the failure rows are never
written and the report phase aborts. -/
theorem c9_unbound_header (successes fails : List PyVal)
    (h1 : successes = []) (h2 : fails ≠ []) :
    write_report "a+" fails = Except.error unboundLocalMsg ∧
    writeReportsPhase successes fails = Except.error unboundLocalMsg := by
  subst h1
  match fails, h2 with
  | f :: fs, _ => exact ⟨rfl, rfl⟩

/-- Witness for c9_unbound_header at a concrete input. -/
theorem c9_unbound_header_witness :
    (([] : List PyVal) = [] ∧
      ([PyVal.tuple [PyVal.list [PyVal.int 1], PyVal.int 100, PyVal.str "pers",
        PyVal.str "01-01-2024", PyVal.str "Fail"]] : List PyVal) ≠ []) ∧
    writeReportsPhase []
      [PyVal.tuple [PyVal.list [PyVal.int 1], PyVal.int 100, PyVal.str "pers",
        PyVal.str "01-01-2024", PyVal.str "Fail"]] = Except.error unboundLocalMsg :=
  ⟨⟨rfl, by simp⟩, (c9_unbound_header _ _ rfl (by simp)).2⟩

/-- C4 counterexample: the claim states the Disabled short-circuit happens
before template rendering's externally visible side effects are attempted.
With sending disabled (non-production environment, SEND_EMAIL_YN = "N")
send_email does return ("Email Send Disabled") without contacting the
transport, but its effect trace already contains the template render:
generate_email_content runs before the disabled check in the source, so
the short-circuit does not precede rendering. -/
theorem c4_counterexample :
    (is_local_environment pDisabled.cfg.awHomeSet
      || !send_email_enabled pDisabled.cfg.sendEmailYN) = true ∧
    (send_email pDisabled aSendable).1 = (false, "Email Send Disabled") ∧
    (send_email pDisabled aSendable).2 = [Effect.renderTemplate] ∧
    Effect.renderTemplate ∈ (send_email pDisabled aSendable).2 := by
  refine ⟨rfl, rfl, rfl, ?_⟩
  have h : (send_email pDisabled aSendable).2 = [Effect.renderTemplate] := rfl
  rw [h]
  simp

/-- C4 amended: when email sending is disabled by configuration or the run
executes in a non-production environment, send_email returns the Disabled
outcome without contacting the email transport, but only after the
member-specific template rendering and message construction have been
performed; the short-circuit precedes the transport call, not the
rendering. -/
theorem c4_amended (p : ProcessParams) (account : ClosedAccountRecord)
    (hdisabled : (is_local_environment p.cfg.awHomeSet
      || !send_email_enabled p.cfg.sendEmailYN) = true) :
    send_email p account = ((false, "Email Send Disabled"), [Effect.renderTemplate]) := by
  simp [send_email, hdisabled]

/-- Witness for c4_amended at a concrete input. -/
theorem c4_amended_witness :
    (is_local_environment pDisabled.cfg.awHomeSet
      || !send_email_enabled pDisabled.cfg.sendEmailYN) = true ∧
    send_email pDisabled aSendable = ((false, "Email Send Disabled"), [Effect.renderTemplate]) :=
  ⟨rfl, c4_amended pDisabled aSendable rfl⟩

/-- C8: write_audit_log renders the metadata lines, then the EMAILS SENT
section over the records with EXCPYN false, then the EXCEPTIONS section
over the records with EXCPYN true, then END; the two groups are the
order-preserving filters of the final record list (sublists of it), every
record belongs to exactly one group, and write_csv renders an empty group
as the NONE marker and a non-empty group as a header-led table. -/
theorem c8_audit_partition (run_date effdate : String) (csv_header : List String)
    (getField : ClosedAccountRecord → String → String)
    (accounts : List ClosedAccountRecord) :
    write_audit_log run_date effdate csv_header getField accounts =
      [["CONSUMER CLOSED LOANS EMAIL AUDIT LOG"],
       ["RUN DATE: " ++ run_date],
       ["EFFDATE: " ++ effdate],
       []]
      ++ [["EMAILS SENT"]]
      ++ write_csv csv_header getField (accounts.filter (fun r => !r.EXCPYN))
      ++ [[]]
      ++ [["EXCEPTIONS"]]
      ++ write_csv csv_header getField (accounts.filter (fun r => r.EXCPYN))
      ++ [["END"]] ∧
    List.Sublist (accounts.filter (fun r => !r.EXCPYN)) accounts ∧
    List.Sublist (accounts.filter (fun r => r.EXCPYN)) accounts ∧
    (∀ a ∈ accounts, (a ∈ accounts.filter (fun r => !r.EXCPYN))
      ↔ ¬(a ∈ accounts.filter (fun r => r.EXCPYN))) ∧
    (∀ recs : List ClosedAccountRecord, recs = [] →
      write_csv csv_header getField recs = [["NONE"], []]) ∧
    (∀ recs : List ClosedAccountRecord, recs ≠ [] →
      write_csv csv_header getField recs =
        (csv_header :: recs.map (fun r => csv_header.map (getField r))) ++ [[]]) := by
  refine ⟨rfl, List.filter_sublist _, List.filter_sublist _, ?_, ?_, ?_⟩
  · intro a ha
    simp only [List.mem_filter, ha, true_and]
    cases h : a.EXCPYN <;> simp
  · intro recs h
    subst h
    rfl
  · intro recs h
    match recs, h with
    | r :: rs, _ => rfl

/-- Witness for c8_audit_partition at a concrete input. -/
theorem c8_audit_partition_witness :
    aExc ∈ [aExc] ∧
    ((aExc ∈ [aExc].filter (fun r => !r.EXCPYN))
      ↔ ¬(aExc ∈ [aExc].filter (fun r => r.EXCPYN))) :=
  ⟨by simp,
    (c8_audit_partition "10/12/2026" "10-01-2026" ["ACCTNBR"] (fun _ _ => "")
      [aExc]).2.2.2.1 aExc (by simp)⟩

/-! ## Notification pipeline lemmas -/

theorem contains_iff_mem (s : List (Option String)) (x : Option String) :
    s.contains x = true ↔ x ∈ s := List.elem_iff

theorem send_email_fst_cases (p : ProcessParams) (a : ClosedAccountRecord) :
    (send_email p a).1 = (false, "Email Send Disabled") ∨
    (send_email p a).1 = (true, "Email Sent") ∨
    (send_email p a).1 = (false, "Email Failed") := by
  unfold send_email
  split
  · exact Or.inl rfl
  · split
    · exact Or.inr (Or.inl rfl)
    · exact Or.inr (Or.inr rfl)

theorem process_one_already_sent (p : ProcessParams) (s : List (Option String))
    (a : ClosedAccountRecord) (h : a.EMAILADDR ∈ s) :
    process_one p s a = ({ a with RESULT := "Email Already Sent", EXCPYN := false }, s) := by
  unfold process_one process_one_rules init_record
  simp [h]

theorem process_one_send_path (p : ProcessParams) (s : List (Option String))
    (a : ClosedAccountRecord)
    (h1 : s.contains a.EMAILADDR = false)
    (h2 : validate_email p.libValid a.EMAILADDR = true)
    (h3 : a.BALANCE.getD 0 = 0)
    (h4 : is_fdi p.parseDate p.now a = false) :
    process_one p s a =
      ({ a with RESULT := (send_email p a).1.2, EXCPYN := !(send_email p a).1.1 },
        insertOnce a.EMAILADDR s) := by
  have hmem : a.EMAILADDR ∉ s := by
    intro hm
    have hc := (contains_iff_mem s a.EMAILADDR).mpr hm
    rw [h1] at hc
    exact Bool.false_ne_true hc
  have h4' : is_fdi p.parseDate p.now { a with RESULT := "", EXCPYN := false } = false := h4
  have hse : send_email p { a with RESULT := "", EXCPYN := false } = send_email p a := rfl
  unfold process_one process_one_rules init_record
  simp [hmem, h2, h3, h4', hse]

theorem insertOnce_mem_self (x : Option String) (s : List (Option String)) :
    x ∈ insertOnce x s := by
  unfold insertOnce
  split
  next h => exact (contains_iff_mem s x).mp h
  next h => exact List.mem_cons_self x s

theorem insertOnce_mem_of_mem (x y : Option String) (s : List (Option String))
    (h : y ∈ s) : y ∈ insertOnce x s := by
  unfold insertOnce
  split
  · exact h
  · exact List.mem_cons_of_mem x h

theorem process_one_sent_monotone (p : ProcessParams) (s : List (Option String))
    (a : ClosedAccountRecord) (x : Option String) (hx : x ∈ s) :
    x ∈ (process_one p s a).2 := by
  unfold process_one process_one_rules init_record
  split
  · exact hx
  · split
    · exact hx
    · split
      · exact hx
      · split
        · exact hx
        · split
          · exact insertOnce_mem_of_mem _ _ _ hx
          · exact hx

/-- Exhaustive case analysis of one process_records iteration: exactly one
of the five rule-chain branches fires, and the record and set outcome of
each branch. -/
theorem process_one_cases (p : ProcessParams) (s : List (Option String))
    (a : ClosedAccountRecord) :
    (a.EMAILADDR ∈ s ∧
      process_one p s a = ({ a with RESULT := "Email Already Sent", EXCPYN := false }, s)) ∨
    (a.EMAILADDR ∉ s ∧ validate_email p.libValid a.EMAILADDR = false ∧
      process_one p s a = ({ a with RESULT := "Email Address Invalid", EXCPYN := true }, s)) ∨
    (a.EMAILADDR ∉ s ∧ validate_email p.libValid a.EMAILADDR = true ∧
      a.BALANCE.getD 0 ≠ 0 ∧
      process_one p s a = ({ a with RESULT := "Account Has Balance", EXCPYN := true }, s)) ∨
    (a.EMAILADDR ∉ s ∧ validate_email p.libValid a.EMAILADDR = true ∧
      a.BALANCE.getD 0 = 0 ∧ is_fdi p.parseDate p.now a = true ∧
      process_one p s a = ({ a with RESULT := "Existing Active 8FDI Note", EXCPYN := true }, s)) ∨
    (a.EMAILADDR ∉ s ∧ validate_email p.libValid a.EMAILADDR = true ∧
      a.BALANCE.getD 0 = 0 ∧ is_fdi p.parseDate p.now a = false ∧
      process_one p s a =
        ({ a with RESULT := (send_email p a).1.2, EXCPYN := !(send_email p a).1.1 },
          insertOnce a.EMAILADDR s)) := by
  by_cases hmem : a.EMAILADDR ∈ s
  · exact Or.inl ⟨hmem, process_one_already_sent p s a hmem⟩
  · have hcont : s.contains a.EMAILADDR = false := by
      cases hc : s.contains a.EMAILADDR
      · rfl
      · exact absurd ((contains_iff_mem s a.EMAILADDR).mp hc) hmem
    by_cases hval : validate_email p.libValid a.EMAILADDR = true
    · by_cases hbal : a.BALANCE.getD 0 = 0
      · by_cases hfdi : is_fdi p.parseDate p.now a = true
        · refine Or.inr (Or.inr (Or.inr (Or.inl ⟨hmem, hval, hbal, hfdi, ?_⟩)))
          have hfdi' : is_fdi p.parseDate p.now { a with RESULT := "", EXCPYN := false }
            = true := hfdi
          unfold process_one process_one_rules init_record
          simp [hmem, hval, hbal, hfdi']
        · have hfdi' : is_fdi p.parseDate p.now a = false := by
            cases hf : is_fdi p.parseDate p.now a
            · rfl
            · exact absurd hf hfdi
          exact Or.inr (Or.inr (Or.inr (Or.inr ⟨hmem, hval, hbal, hfdi',
            process_one_send_path p s a hcont hval hbal hfdi'⟩)))
      · refine Or.inr (Or.inr (Or.inl ⟨hmem, hval, hbal, ?_⟩))
        unfold process_one process_one_rules init_record
        simp [hmem, hval, hbal]
    · have hval' : validate_email p.libValid a.EMAILADDR = false := by
        cases hv : validate_email p.libValid a.EMAILADDR
        · rfl
        · exact absurd hv hval
      refine Or.inr (Or.inl ⟨hmem, hval', ?_⟩)
      unfold process_one process_one_rules init_record
      simp [hmem, hval']

theorem process_one_send_result_mem (p : ProcessParams) (s : List (Option String))
    (a : ClosedAccountRecord)
    (h : (process_one p s a).1.RESULT ∈ sendAttemptResults) :
    a.EMAILADDR ∈ (process_one p s a).2 := by
  rcases process_one_cases p s a with ⟨_, he⟩ | ⟨_, _, he⟩ | ⟨_, _, _, he⟩ |
    ⟨_, _, _, _, he⟩ | ⟨_, _, _, _, he⟩
  · rw [he] at h; simp [sendAttemptResults] at h
  · rw [he] at h; simp [sendAttemptResults] at h
  · rw [he] at h; simp [sendAttemptResults] at h
  · rw [he] at h; simp [sendAttemptResults] at h
  · rw [he]; exact insertOnce_mem_self a.EMAILADDR s

theorem processList_append (p : ProcessParams) (l1 l2 : List ClosedAccountRecord) :
    ∀ s, processList p s (l1 ++ l2) =
      ((processList p s l1).1 ++ (processList p (processList p s l1).2 l2).1,
        (processList p (processList p s l1).2 l2).2) := by
  induction l1 with
  | nil => intro s; simp [processList]
  | cons x xs ih => intro s; simp [processList, ih]

theorem processList_sent_monotone (p : ProcessParams) (l : List ClosedAccountRecord) :
    ∀ s x, x ∈ s → x ∈ (processList p s l).2 := by
  induction l with
  | nil => intro s x hx; exact hx
  | cons a rest ih =>
    intro s x hx
    exact ih _ _ (process_one_sent_monotone p s a x hx)

theorem contains_eq_false_of_not_mem (s : List (Option String)) (x : Option String)
    (h : x ∉ s) : s.contains x = false := by
  cases hc : s.contains x
  · rfl
  · exact absurd ((contains_iff_mem s x).mp hc) h

theorem insertOnce_not_mem (x : Option String) (s : List (Option String))
    (h : x ∉ s) : insertOnce x s = x :: s := by
  unfold insertOnce
  rw [contains_eq_false_of_not_mem s x h]
  simp

theorem is_fdi_iff (pd : String → Int) (now : Int) (a : ClosedAccountRecord) :
    is_fdi pd now a = true ↔
      (a.FDI_NOTECLASSCD = some "8FDI" ∧
        ∃ d, a.FDI_INACTIVE_DATE = some d ∧ d ≠ "" ∧ pd d ≥ now) := by
  unfold is_fdi
  split
  next h => simp [h]
  next h =>
    have heq : a.FDI_NOTECLASSCD = some "8FDI" := not_ne_iff.mp h
    cases hd : a.FDI_INACTIVE_DATE with
    | none => simp [heq, hd]
    | some d =>
      by_cases hde : d = ""
      · subst hde
        simp [heq, hd]
      · simp [heq, hd, hde]

theorem process_one_result_spec (p : ProcessParams) (s : List (Option String))
    (a : ClosedAccountRecord) :
    (process_one p s a).1.RESULT ∈ allResults ∧
    ((process_one p s a).1.EXCPYN = true ↔ (process_one p s a).1.RESULT ∈ exceptionResults) := by
  rcases process_one_cases p s a with ⟨_, he⟩ | ⟨_, _, he⟩ | ⟨_, _, _, he⟩ |
    ⟨_, _, _, _, he⟩ | ⟨_, _, _, _, he⟩
  · rw [he]; exact ⟨by simp [allResults], by simp [exceptionResults]⟩
  · rw [he]; exact ⟨by simp [allResults], by simp [exceptionResults]⟩
  · rw [he]; exact ⟨by simp [allResults], by simp [exceptionResults]⟩
  · rw [he]; exact ⟨by simp [allResults], by simp [exceptionResults]⟩
  · rw [he]
    rcases send_email_fst_cases p a with hse | hse | hse
    · exact ⟨by simp [hse, allResults], by simp [hse, exceptionResults]⟩
    · exact ⟨by simp [hse, allResults], by simp [hse, exceptionResults]⟩
    · exact ⟨by simp [hse, allResults], by simp [hse, exceptionResults]⟩

theorem processList_result_spec (p : ProcessParams) (l : List ClosedAccountRecord) :
    ∀ s, ∀ a ∈ (processList p s l).1,
      a.RESULT ∈ allResults ∧ (a.EXCPYN = true ↔ a.RESULT ∈ exceptionResults) := by
  induction l with
  | nil => intro s a ha; simp [processList] at ha
  | cons x xs ih =>
    intro s a ha
    simp only [processList] at ha
    rcases List.mem_cons.mp ha with heq | hmem
    · rw [heq]; exact process_one_result_spec p s x
    · exact ih _ a hmem

/-! ## Claim theorems over the notification pipeline -/

/-- C2 counterexample: the claim states EXCPYN is true iff the disposition
is among InvalidEmail, NonzeroBalance, ActiveNotice, SendFailed, and that
the Disabled disposition is a non-exception skip.  With sending disabled,
a record that passes every exclusion rule receives RESULT
"Email Send Disabled" together with EXCPYN = true (the caller sets
EXCPYN = not successful and send_email reports successful = False for the
disabled case), so Disabled is recorded as an exception. -/
theorem c2_counterexample :
    process_records pDisabled [aSendable] =
      [{ aSendable with RESULT := "Email Send Disabled", EXCPYN := true }] ∧
    ("Email Send Disabled" : String) ∉ (["Email Address Invalid", "Account Has Balance",
      "Existing Active 8FDI Note", "Email Failed"] : List String) := by
  exact ⟨by decide, by decide⟩

/-- C2 amended: every record processed by process_records is assigned
exactly one of the seven dispositions, and EXCPYN is true iff the
disposition is among InvalidEmail, NonzeroBalance, ActiveNotice, Disabled,
SendFailed - the Disabled outcome is recorded as an exception, not as a
non-exception skip. -/
theorem c2_amended (p : ProcessParams) (accounts : List ClosedAccountRecord)
    (a : ClosedAccountRecord) (ha : a ∈ process_records p accounts) :
    a.RESULT ∈ allResults ∧ (a.EXCPYN = true ↔ a.RESULT ∈ exceptionResults) :=
  processList_result_spec p accounts [] a ha

/-- Witness for c2_amended at a concrete input. -/
theorem c2_amended_witness :
    ({ aSendable with RESULT := "Email Send Disabled", EXCPYN := true }
      ∈ process_records pDisabled [aSendable]) ∧
    ({ aSendable with RESULT := "Email Send Disabled", EXCPYN := true }
      : ClosedAccountRecord).RESULT ∈ allResults :=
  ⟨by decide, (c2_amended pDisabled [aSendable] _ (by decide)).1⟩

/-- C3 counterexample: the claim states that of two records carrying the
same recipient address, the second processed is always AlreadySent.  The
email_sent set is only updated on the send path, so when the first record
is excluded (here: nonzero balance) its address is never registered and
the second record with the same address proceeds through the rule chain
(here to the disabled send attempt) instead of being marked AlreadySent. -/
theorem c3_counterexample :
    aSameAddrBalance.EMAILADDR = aSendable.EMAILADDR ∧
    process_records pDisabled [aSameAddrBalance, aSendable] =
      [{ aSameAddrBalance with RESULT := "Account Has Balance", EXCPYN := true },
       { aSendable with RESULT := "Email Send Disabled", EXCPYN := true }] ∧
    ("Email Send Disabled" : String) ≠ "Email Already Sent" := by
  exact ⟨rfl, by decide, by decide⟩

/-- C3 amended: of two records carrying the same recipient address, the
second processed is assigned AlreadySent with exception = false regardless
of its own balance and note fields, provided the first record actually
reached a send attempt (its RESULT is one of Sent, SendFailed, Disabled);
the equation places the AlreadySent record at the second record's position
in the output, with the surrounding records processed as usual. -/
theorem c3_amended (p : ProcessParams) (pre mid post : List ClosedAccountRecord)
    (r1 r2 : ClosedAccountRecord) (haddr : r2.EMAILADDR = r1.EMAILADDR)
    (hsend : (process_one p (processList p [] pre).2 r1).1.RESULT ∈ sendAttemptResults) :
    process_records p (pre ++ (r1 :: (mid ++ (r2 :: post)))) =
      (processList p [] pre).1
      ++ ((process_one p (processList p [] pre).2 r1).1
        :: ((processList p (process_one p (processList p [] pre).2 r1).2 mid).1
          ++ ({ r2 with RESULT := "Email Already Sent", EXCPYN := false }
            :: (processList p
              (processList p (process_one p (processList p [] pre).2 r1).2 mid).2 post).1))) := by
  have hmem1 : r1.EMAILADDR ∈ (process_one p (processList p [] pre).2 r1).2 :=
    process_one_send_result_mem p (processList p [] pre).2 r1 hsend
  have hmem3 : r1.EMAILADDR ∈
      (processList p (process_one p (processList p [] pre).2 r1).2 mid).2 :=
    processList_sent_monotone p mid _ r1.EMAILADDR hmem1
  have hr2 := process_one_already_sent p
    (processList p (process_one p (processList p [] pre).2 r1).2 mid).2 r2
    (haddr ▸ hmem3)
  unfold process_records
  rw [processList_append p pre (r1 :: (mid ++ (r2 :: post))) []]
  simp only [processList]
  rw [processList_append p mid (r2 :: post) (process_one p (processList p [] pre).2 r1).2]
  simp only [processList, hr2]

/-- Witness for c3_amended at a concrete input. -/
theorem c3_amended_witness :
    ((process_one pDisabled (processList pDisabled [] []).2 aSendable).1.RESULT
      ∈ sendAttemptResults) ∧
    process_records pDisabled ([] ++ (aSendable :: ([] ++ (aSameAddrBalance :: [])))) =
      (processList pDisabled [] []).1
      ++ ((process_one pDisabled (processList pDisabled [] []).2 aSendable).1
        :: ((processList pDisabled
            (process_one pDisabled (processList pDisabled [] []).2 aSendable).2 []).1
          ++ ({ aSameAddrBalance with RESULT := "Email Already Sent", EXCPYN := false }
            :: (processList pDisabled
              (processList pDisabled
                (process_one pDisabled (processList pDisabled [] []).2 aSendable).2 []).2 []).1))) :=
  ⟨by decide, c3_amended pDisabled [] [] [] aSendable aSameAddrBalance rfl (by decide)⟩

/-- C6: a record that passes the duplicate, invalid-email and
nonzero-balance rules is assigned ActiveNotice ("Existing Active 8FDI
Note") with exception = true exactly when its note class code is "8FDI"
and its note inactive date is present (neither missing nor empty) and that
date parses to a moment on or after the current one. -/
theorem c6_active_notice (p : ProcessParams) (s : List (Option String))
    (a : ClosedAccountRecord)
    (h1 : a.EMAILADDR ∉ s)
    (h2 : validate_email p.libValid a.EMAILADDR = true)
    (h3 : a.BALANCE.getD 0 = 0) :
    ((process_one p s a).1.RESULT = "Existing Active 8FDI Note" ∧
      (process_one p s a).1.EXCPYN = true) ↔
    (a.FDI_NOTECLASSCD = some "8FDI" ∧
      ∃ d, a.FDI_INACTIVE_DATE = some d ∧ d ≠ "" ∧ p.parseDate d ≥ p.now) := by
  rw [← is_fdi_iff p.parseDate p.now a]
  rcases process_one_cases p s a with ⟨hm, he⟩ | ⟨hm, hv, he⟩ | ⟨hm, hv, hb, he⟩ |
    ⟨hm, hv, hb, hf, he⟩ | ⟨hm, hv, hb, hf, he⟩
  · exact absurd hm h1
  · rw [h2] at hv; exact absurd hv (by decide)
  · exact absurd h3 hb
  · rw [he]; simp [hf]
  · rw [he]
    rcases send_email_fst_cases p a with hse | hse | hse
    · simp [hse, hf]
    · simp [hse, hf]
    · simp [hse, hf]

/-- Witness for c6_active_notice at a concrete input. -/
theorem c6_active_notice_witness :
    (aFdi.EMAILADDR ∉ ([] : List (Option String)) ∧
      validate_email pFdi.libValid aFdi.EMAILADDR = true ∧
      aFdi.BALANCE.getD 0 = 0) ∧
    ((process_one pFdi [] aFdi).1.RESULT = "Existing Active 8FDI Note" ∧
      (process_one pFdi [] aFdi).1.EXCPYN = true) :=
  ⟨⟨by simp, rfl, rfl⟩,
    (c6_active_notice pFdi [] aFdi (by simp) rfl rfl).mpr
      ⟨rfl, "12/31/2099", rfl, by decide, by decide⟩⟩

/-- C10: when a record reaches the send attempt, its own EMAILADDR field -
not the possibly overridden dispatched-to address - is added to the
run-scoped email_sent set exactly once; the registered set does not depend
on the configuration (including TEST_EMAIL_ADDR) or the transport outcome,
and any record processed afterwards with the same EMAILADDR is classified
AlreadySent with exception = false, even when no email was transmitted for
the first record. -/
theorem c10_sent_set (p : ProcessParams) (s : List (Option String))
    (a b : ClosedAccountRecord)
    (h1 : a.EMAILADDR ∉ s)
    (h2 : validate_email p.libValid a.EMAILADDR = true)
    (h3 : a.BALANCE.getD 0 = 0)
    (h4 : is_fdi p.parseDate p.now a = false)
    (hb : b.EMAILADDR = a.EMAILADDR) :
    (process_one p s a).2 = a.EMAILADDR :: s ∧
    ((process_one p s a).2).count a.EMAILADDR = 1 ∧
    (∀ q : ProcessParams, q.libValid = p.libValid → q.parseDate = p.parseDate →
      q.now = p.now → (process_one q s a).2 = a.EMAILADDR :: s) ∧
    (process_one p (process_one p s a).2 b).1.RESULT = "Email Already Sent" ∧
    (process_one p (process_one p s a).2 b).1.EXCPYN = false := by
  have hcont := contains_eq_false_of_not_mem s a.EMAILADDR h1
  have he := process_one_send_path p s a hcont h2 h3 h4
  have hins := insertOnce_not_mem a.EMAILADDR s h1
  have hset : (process_one p s a).2 = a.EMAILADDR :: s := by rw [he]; exact hins
  have hmem : b.EMAILADDR ∈ (process_one p s a).2 := by
    rw [hb, hset]; exact List.mem_cons_self _ _
  have hr := process_one_already_sent p (process_one p s a).2 b hmem
  refine ⟨hset, ?_, ?_, ?_, ?_⟩
  · rw [hset, List.count_cons_self, List.count_eq_zero.mpr h1]
  · intro q hq1 hq2 hq3
    have h2' : validate_email q.libValid a.EMAILADDR = true := by rw [hq1]; exact h2
    have h4' : is_fdi q.parseDate q.now a = false := by rw [hq2, hq3]; exact h4
    have he' := process_one_send_path q s a hcont h2' h3 h4'
    rw [he']; exact hins
  · rw [hr]
  · rw [hr]

/-- Witness for c10_sent_set at a concrete input. -/
theorem c10_sent_set_witness :
    (aSendable.EMAILADDR ∉ ([] : List (Option String)) ∧
      validate_email pDisabled.libValid aSendable.EMAILADDR = true ∧
      aSendable.BALANCE.getD 0 = 0 ∧
      is_fdi pDisabled.parseDate pDisabled.now aSendable = false ∧
      aSameAddr.EMAILADDR = aSendable.EMAILADDR) ∧
    (process_one pDisabled [] aSendable).2 = aSendable.EMAILADDR :: [] :=
  ⟨⟨by simp, rfl, rfl, rfl, rfl⟩,
    (c10_sent_set pDisabled [] aSendable aSameAddr (by simp) rfl rfl rfl rfl).1⟩

end Delivery
